import Mathlib

/-!
Shallow embedding of igdbapi/core.py: the APIClient request builder, the
APIResponse JSON view, the APIObject query builder (find, meta, equality),
and the ESRB enumeration, together with theorems settling the claims about
them.
-/

/-- A JSON value, as handed to json.loads: null, booleans, numbers
(modelled as integers, the only numbers the claims touch), strings,
arrays, and objects (ordered key-value lists with distinct keys, the shape
json.loads produces). -/
inductive JsonV : Type where
  | null : JsonV
  | bool (b : Bool) : JsonV
  | num (n : Int) : JsonV
  | str (s : String) : JsonV
  | arr (xs : List JsonV) : JsonV
  | obj (fs : List (String × JsonV)) : JsonV

/-- A Python runtime value as produced by APIResponse parsing: None, bool,
int, str, list, or an argparse.Namespace (attribute record). -/
inductive PyVal : Type where
  | none : PyVal
  | bool (b : Bool) : PyVal
  | int (n : Int) : PyVal
  | str (s : String) : PyVal
  | list (xs : List PyVal) : PyVal
  | namespace (fs : List (String × PyVal)) : PyVal

/-- Python exceptions raised by the embedded code. `apiError` stands for
errors.APIError; the errors module is not under src, and the spec only says
it carries a human-readable message, which is all the constructor keeps. -/
inductive PyError : Type where
  | valueError (msg : String) : PyError
  | typeError (msg : String) : PyError
  | apiError (msg : String) : PyError

mutual

/-- APIResponse.json2obj: json.loads with object_hook = Namespace(**d),
i.e. every JSON object becomes an attribute record (the hook is applied
bottom-up to each object), arrays stay ordered lists, scalars unchanged. -/
def json2obj : JsonV → PyVal
  | JsonV.null => PyVal.none
  | JsonV.bool b => PyVal.bool b
  | JsonV.num n => PyVal.int n
  | JsonV.str s => PyVal.str s
  | JsonV.arr xs => PyVal.list (json2objList xs)
  | JsonV.obj fs => PyVal.namespace (json2objFields fs)

/-- json2obj element-wise on the items of a JSON array. -/
def json2objList : List JsonV → List PyVal
  | [] => []
  | x :: xs => json2obj x :: json2objList xs

/-- json2obj value-wise on the fields of a JSON object. -/
def json2objFields : List (String × JsonV) → List (String × PyVal)
  | [] => []
  | (k, v) :: fs => (k, json2obj v) :: json2objFields fs

end

/-- The element-wise conversion is exactly List.map json2obj. -/
theorem json2objList_eq_map (xs : List JsonV) : json2objList xs = xs.map json2obj := by
  induction xs with
  | nil => rfl
  | cons x xs ih => simp [json2objList, ih]

/-- The field-wise conversion maps json2obj over each field value. -/
theorem json2objFields_eq_map (fs : List (String × JsonV)) :
    json2objFields fs = fs.map (fun p => (p.1, json2obj p.2)) := by
  induction fs with
  | nil => rfl
  | cons p fs ih => cases p; simp [json2objFields, ih]

/-- First-match lookup of a key in the field list of a JSON object. -/
def lookupField : List (String × JsonV) → String → Option JsonV
  | [], _ => Option.none
  | (k, v) :: rest, key => if k = key then Option.some v else lookupField rest key

/-- First-match lookup of a key in the field list of a Namespace. -/
def lookupNS : List (String × PyVal) → String → Option PyVal
  | [], _ => Option.none
  | (k, v) :: rest, key => if k = key then Option.some v else lookupNS rest key

/-- Python attribute access on a parsed value: defined (some) exactly on a
Namespace holding the attribute, AttributeError (none) otherwise. -/
def getAttr : PyVal → String → Option PyVal
  | PyVal.namespace fs, key => lookupNS fs key
  | _, _ => Option.none

/-- True exactly on a JSON array (the Python-side value is then a list). -/
def isArr : JsonV → Bool
  | JsonV.arr _ => true
  | _ => false

/-- APIResponse.as_single_result on the parsed response text: an empty list
gives None, a one-element list gives the element, a longer list raises
APIError with the count, and any non-list comes back as parsed. -/
def asSingleResult (text : JsonV) : Except PyError PyVal :=
  match json2obj text with
  | PyVal.list [] => Except.ok PyVal.none
  | PyVal.list [x] => Except.ok x
  | PyVal.list xs =>
      Except.error (PyError.apiError ("Expected single result, found " ++ toString xs.length))
  | j => Except.ok j

/-- APIResponse.as_collection: just the parsed response. -/
def asCollection (text : JsonV) : PyVal :=
  json2obj text

/-! The APIClient: construction and the call operation. -/

/-- The module constant V3_ENDPOINT. -/
def V3_ENDPOINT : String := "https://api-v3.igdb.com/"

/-- The mutable attributes an APIClient instance holds after __init__:
api_key, command and data (both None until a call), and the header dict.
Header values are optional strings because user-key is set to the possibly
absent api_key before the key check runs. -/
structure APIClientState : Type where
  api_key : Option String
  command : Option String
  data : Option String
  headers : List (String × Option String)

/-- One HTTP request as requests.post receives it from this code: the
target URL, the body, the header dict, and the allow_redirects flag. -/
structure Request : Type where
  url : String
  body : String
  headers : List (String × Option String)
  allowRedirects : Bool

/-- APIClient.__init__(api_key): stores the key, the None command and
data, and the headers; raises ValueError when no key was supplied. The
second component is the list of HTTP requests issued during construction,
which the body never makes, hence []. -/
def apiClientInit (api_key : Option String) : Except PyError APIClientState × List Request :=
  let st : APIClientState :=
    { api_key := api_key
      command := Option.none
      data := Option.none
      headers := [("Accept", Option.some "application/json; charset=UTF-8"),
                  ("user-key", api_key)] }
  match api_key with
  | Option.none => (Except.error (PyError.valueError "You must set an API key."), [])
  | Option.some _ => (Except.ok st, [])

/-- The state of a successfully constructed client holding the given key:
what apiClientInit returns on Option.some key. -/
def initState (key : String) : APIClientState :=
  { api_key := Option.some key
    command := Option.none
    data := Option.none
    headers := [("Accept", Option.some "application/json; charset=UTF-8"),
                ("user-key", Option.some key)] }

/-- APIClient.call(command, data): records the command, joins the clauses
with a semicolon separator and a trailing semicolon when any exist (empty
body otherwise), and issues the single POST to endpoint plus command with
the stored headers and redirects disabled. Returns the request made and
the updated client state. -/
def clientCall (st : APIClientState) (command : String) (data : List String) :
    Request × APIClientState :=
  let body := if data ≠ [] then String.intercalate "; " data ++ ";" else ""
  let st := { st with command := Option.some command, data := Option.some body }
  let req : Request :=
    { url := V3_ENDPOINT ++ command
      body := body
      headers := st.headers
      allowRedirects := false }
  (req, st)

/-! The APIObject query builder. -/

/-- The fields argument of find: a plain string or a list (joined by
commas by the code). -/
def fieldsString : Sum String (List String) → String
  | Sum.inl s => s
  | Sum.inr l => String.intercalate "," l

/-- The where-id component of the clause list: present exactly when
entity_id is not None, including for id 0. -/
def idClause : Option Int → List String
  | Option.some i => ["where id = " ++ toString i]
  | Option.none => []

/-- The limit component of the clause list: absent when limit is 0
(falsy), clamped to 500 when above 500. -/
def limitClause (limit : Int) : List String :=
  if limit ≠ 0 then
    [if limit > 500 then "limit 500" else "limit " ++ toString limit]
  else []

/-- The warning printed by the limit block: exactly one line, only when a
nonzero limit exceeds 500, mentioning the original value. -/
def limitWarning (limit : Int) : List String :=
  if limit ≠ 0 ∧ limit > 500 then
    ["Limit (" ++ toString limit ++ ") set to maximum allowed (500)."]
  else []

/-- The optional arguments of APIObject.find, with the defaults of the
source as the default record values. -/
structure FindArgs : Type where
  fields : Sum String (List String) := Sum.inl "*"
  exclude : String := ""
  search : String := ""
  entity_id : Option Int := Option.none
  name : String := ""
  slug : String := ""
  filters : String := ""
  limit : Int := 0
  sort : String := ""

/-- The body of APIObject.find after the entity check: the data list is
seeded with the fields clause and each block appends its clause when its
argument is truthy, in source order; the second component collects what
the limit block prints. -/
def findClauses (a : FindArgs) : List String × List String :=
  let fields := fieldsString a.fields
  let data := ["fields " ++ fields]
  let data := data ++ (if a.exclude ≠ "" then ["exclude " ++ a.exclude] else [])
  let data := data ++ (if a.search ≠ "" then ["search \"" ++ a.search ++ "\""] else [])
  let data := data ++ idClause a.entity_id
  let data := data ++ (if a.name ≠ "" then ["where name = \"" ++ a.name ++ "\""] else [])
  let data := data ++ (if a.slug ≠ "" then ["where slug = \"" ++ a.slug ++ "\""] else [])
  let data := data ++ (if a.filters ≠ "" then [a.filters] else [])
  let data := data ++ limitClause a.limit
  let data := data ++ (if a.sort ≠ "" then ["sort " ++ a.sort] else [])
  (data, limitWarning a.limit)

/-- APIObject.find up to the client call: raises ValueError when entity is
None, otherwise returns the command (entity plus slash), the clause list
and the printed warnings. -/
def find (entity : Option String) (a : FindArgs) :
    Except PyError (String × List String × List String) :=
  match entity with
  | Option.none =>
      Except.error (PyError.valueError "Plase specify entity (\"game\", \"platform\", etc)")
  | Option.some e =>
      let c := findClauses a
      Except.ok (e ++ "/", c.1, c.2)

/-- The command find stores on the object: entity plus a trailing slash. -/
def findCommand (entity : String) : String := entity ++ "/"

/-- The command APIObject.meta builds from the stored command. -/
def metaCommand (storedCommand : String) : String := storedCommand ++ "/meta"

/-- Clause ordering as §4.1 of the spec words it: one list per clause
kind, concatenated in the fixed order fields, exclude, search, where id,
where name, where slug, filters verbatim, limit (clamped at 500), sort;
each optional list empty exactly when its source value is
empty/zero/absent. -/
def specOrderedClauses (a : FindArgs) : List String :=
  ["fields " ++ fieldsString a.fields]
  ++ (if a.exclude ≠ "" then ["exclude " ++ a.exclude] else [])
  ++ (if a.search ≠ "" then ["search \"" ++ a.search ++ "\""] else [])
  ++ (match a.entity_id with
      | Option.some i => ["where id = " ++ toString i]
      | Option.none => [])
  ++ (if a.name ≠ "" then ["where name = \"" ++ a.name ++ "\""] else [])
  ++ (if a.slug ≠ "" then ["where slug = \"" ++ a.slug ++ "\""] else [])
  ++ (if a.filters ≠ "" then [a.filters] else [])
  ++ (if a.limit ≠ 0 then
        [if a.limit > 500 then "limit 500" else "limit " ++ toString a.limit]
      else [])
  ++ (if a.sort ≠ "" then ["sort " ++ a.sort] else [])

/-! APIObject equality and hashing. -/

/-- An instance of a concrete APIObject subclass: the subclass (variant)
tag and the numeric _id attribute. -/
structure APIObjInst : Type where
  cls : String
  id : Int

/-- CPython hash of an int: reduction modulo 2^61 - 1 (sign preserved),
with -1 mapped to -2. -/
def pyHash (n : Int) : Int :=
  let m : Int := 2 ^ 61 - 1
  let h := if n ≥ 0 then n % m else -((-n) % m)
  if h = -1 then -2 else h

/-- APIObject.__hash__: hash(self.id). -/
def objHash (o : APIObjInst) : Int := pyHash o.id

/-- APIObject.__eq__: hash(self) == hash(other). -/
def objEq (o1 o2 : APIObjInst) : Bool := objHash o1 == objHash o2

/-! The ESRB enumeration. -/

/-- The ESRB rating enumeration. -/
inductive ESRB : Type where
  | RP | EC | E | E10plus | T | M | AO

/-- The integer value of each ESRB member. -/
def ESRB.value : ESRB → Int
  | ESRB.RP => 1
  | ESRB.EC => 2
  | ESRB.E => 3
  | ESRB.E10plus => 4
  | ESRB.T => 5
  | ESRB.M => 6
  | ESRB.AO => 7

/-- The dunder str method of ESRB: returns self.value, an int. -/
def esrbStrMethod (e : ESRB) : PyVal := PyVal.int e.value

/-- Python str(e) for an ESRB member: calls the dunder method and raises
TypeError unless the result is a str, which it never is here. -/
def pyStrOfESRB (e : ESRB) : Except PyError String :=
  match esrbStrMethod e with
  | PyVal.str s => Except.ok s
  | PyVal.int _ => Except.error (PyError.typeError "__str__ returned non-string (type int)")
  | _ => Except.error (PyError.typeError "__str__ returned non-string")

/-! Theorems settling the claims. -/

/-- C1: for every call to find with a non-empty entity, the produced
clause list is exactly the fixed-order clause list of the spec: fields
first (always), then exclude, search, where id, where name, where slug,
the raw filters verbatim, limit, and sort, each present exactly when its
source value is non-empty, non-zero, or not unset. -/
theorem C1_find_clause_order (e : String) (he : e ≠ "") (a : FindArgs) :
    (find (Option.some e) a).map (fun r => r.2.1) = Except.ok (specOrderedClauses a) := by
  cases a with
  | mk fields exclude search entity_id name slug filters limit sort =>
    cases entity_id <;>
      simp [find, Except.map, findClauses, specOrderedClauses, idClause, limitClause,
        List.append_assoc]

/-- Witness for C1 at a concrete call. -/
theorem C1_find_clause_order_witness :
    (find (Option.some "games")
        { entity_id := Option.some 7, limit := 10, sort := "rating desc" }).map
      (fun r => r.2.1) =
      Except.ok (specOrderedClauses
        { entity_id := Option.some 7, limit := 10, sort := "rating desc" }) := by
  exact C1_find_clause_order "games" (by decide) _

/-- C2: as_single_result returns the explicit no-result value on an empty
array, the single converted record on a one-element array, an APIError
naming the count on a longer array, and the parsed value itself whenever
the top level is not an array. -/
theorem C2_single_result_cases :
    asSingleResult (JsonV.arr []) = Except.ok PyVal.none ∧
    (∀ x : JsonV, asSingleResult (JsonV.arr [x]) = Except.ok (json2obj x)) ∧
    (∀ xs : List JsonV, 2 ≤ xs.length →
      asSingleResult (JsonV.arr xs) =
        Except.error (PyError.apiError
          ("Expected single result, found " ++ toString xs.length))) ∧
    (∀ v : JsonV, isArr v = false → asSingleResult v = Except.ok (json2obj v)) := by
  refine ⟨rfl, fun x => rfl, ?_, ?_⟩
  · intro xs h
    match xs with
    | x :: y :: rest =>
      simp [asSingleResult, json2obj, json2objList, json2objList_eq_map]
  · intro v h
    cases v <;> first | rfl | simp [isArr] at h

/-- Witness for C2: two records raise the count error, a bare number comes
back as parsed. -/
theorem C2_single_result_cases_witness :
    asSingleResult (JsonV.arr [JsonV.obj [("id", JsonV.num 1)],
        JsonV.obj [("id", JsonV.num 2)]]) =
      Except.error (PyError.apiError "Expected single result, found 2") ∧
    asSingleResult (JsonV.num 5) = Except.ok (PyVal.int 5) := by
  refine ⟨?_, ?_⟩
  · exact C2_single_result_cases.2.2.1
      [JsonV.obj [("id", JsonV.num 1)], JsonV.obj [("id", JsonV.num 2)]] (by decide)
  · exact C2_single_result_cases.2.2.2 (JsonV.num 5) rfl

/-- C3 is refuted by the code: two instances of different concrete
variants that share the id 1 satisfy the embedded __eq__, because __hash__
hashes the raw id only, so the identity of the variant never enters the
comparison. -/
theorem C3_different_variants_same_id_compare_equal :
    objEq { cls := "Game", id := 1 } { cls := "Platform", id := 1 } = true ∧
    ("Game" : String) ≠ "Platform" := by
  exact ⟨by decide, by decide⟩

/-- C4: a limit above 500 is clamped to the clause limit 500 with exactly
one warning naming the original value and the call still succeeds; limit
500 emits limit 500 with no warning; limit 0 emits no limit clause and no
warning. -/
theorem C4_limit_clamp (e : String) (a : FindArgs) :
    (500 < a.limit →
      limitClause a.limit = ["limit 500"] ∧
      limitWarning a.limit =
        ["Limit (" ++ toString a.limit ++ ") set to maximum allowed (500)."] ∧
      "limit 500" ∈ (findClauses a).1 ∧
      (∃ r, find (Option.some e) a = Except.ok r)) ∧
    (a.limit = 500 → limitClause a.limit = ["limit 500"] ∧ limitWarning a.limit = []) ∧
    (a.limit = 0 → limitClause a.limit = [] ∧ limitWarning a.limit = []) := by
  refine ⟨?_, ?_, ?_⟩
  · intro h
    have h0 : a.limit ≠ 0 := by omega
    have hc : limitClause a.limit = ["limit 500"] := by simp [limitClause, h0, h]
    refine ⟨hc, by simp [limitWarning, h0, h], ?_, ⟨_, rfl⟩⟩
    have hm : "limit 500" ∈ limitClause a.limit := by simp [hc]
    simp only [findClauses, List.mem_append]
    tauto
  · intro h; rw [show a.limit = 500 from h]; exact ⟨by decide, by decide⟩
  · intro h; rw [show a.limit = 0 from h]; exact ⟨by decide, by decide⟩

/-- Witness for C4 at limits 501, 500 and 0. -/
theorem C4_limit_clamp_witness :
    limitClause 501 = ["limit 500"] ∧
    limitWarning 501 = ["Limit (501) set to maximum allowed (500)."] ∧
    "limit 500" ∈ (findClauses { limit := 501 }).1 ∧
    limitClause 500 = ["limit 500"] ∧ limitWarning 500 = [] ∧
    limitClause 0 = [] ∧ limitWarning 0 = [] := by
  have h1 := (C4_limit_clamp "game" { limit := 501 }).1 (by decide)
  have h2 := (C4_limit_clamp "game" { limit := 500 }).2.1 rfl
  have h3 := (C4_limit_clamp "game" { limit := 0 }).2.2 rfl
  exact ⟨h1.1, h1.2.1, h1.2.2.1, h2.1, h2.2, h3.1, h3.2⟩

/-- C5: entity_id 0 still produces the clause where id = 0 in the clause
list of find; the where-id component is absent exactly when entity_id is
None, and 0 is distinct from None. -/
theorem C5_entity_id_zero (f : Sum String (List String)) (ex se nm sl fi so : String)
    (li : Int) :
    "where id = 0" ∈ (findClauses
      { fields := f, exclude := ex, search := se, entity_id := Option.some 0,
        name := nm, slug := sl, filters := fi, limit := li, sort := so }).1 ∧
    idClause (Option.some 0) = ["where id = 0"] ∧
    idClause Option.none = [] := by
  refine ⟨?_, rfl, rfl⟩
  simp [findClauses, idClause, List.mem_append]
  exact Or.inr (Or.inr (Or.inr (Or.inl (by decide))))

/-- C6 is refuted by the code: after find stores entity plus a slash,
meta appends the string /meta to it, so the command is entity//meta with a
double slash, not entity/meta; the body of the meta request is empty as
claimed. -/
theorem C6_meta_command_double_slash :
    metaCommand (findCommand "game") = "game//meta" ∧
    metaCommand (findCommand "game") ≠ "game/meta" ∧
    (clientCall (initState "k") (metaCommand (findCommand "game")) []).1.body = "" ∧
    (clientCall (initState "k") (metaCommand (findCommand "game")) []).1.url =
      "https://api-v3.igdb.com/game//meta" := by
  exact ⟨by decide, by decide, by decide, by decide⟩

/-- C7: for a client constructed with a key, call joins a non-empty clause
list with semicolon-space and one trailing semicolon, sends an empty body
for an empty clause list, posts to the endpoint root plus the command with
the Accept and user-key headers, and does not follow redirects. -/
theorem C7_client_call (key cmd : String) (data : List String) (st : APIClientState)
    (h : (apiClientInit (Option.some key)).1 = Except.ok st) :
    (clientCall st cmd data).1.url = V3_ENDPOINT ++ cmd ∧
    (data ≠ [] → (clientCall st cmd data).1.body = String.intercalate "; " data ++ ";") ∧
    (data = [] → (clientCall st cmd data).1.body = "") ∧
    (clientCall st cmd data).1.headers =
      [("Accept", Option.some "application/json; charset=UTF-8"),
       ("user-key", Option.some key)] ∧
    (clientCall st cmd data).1.allowRedirects = false := by
  have h2 : (apiClientInit (Option.some key)).1 = Except.ok (initState key) := rfl
  rw [h2] at h
  injection h with h
  subst h
  refine ⟨rfl, ?_, ?_, rfl, rfl⟩
  · intro hd; simp [clientCall, hd]
  · intro hd; simp [clientCall, hd]

/-- Witness for C7 at a concrete client, command and clause lists. -/
theorem C7_client_call_witness :
    (clientCall (initState "k") "games/" ["fields *", "limit 10"]).1.body =
      "fields *; limit 10;" ∧
    (clientCall (initState "k") "games/" []).1.body = "" := by
  refine ⟨?_, ?_⟩
  · exact (C7_client_call "k" "games/" ["fields *", "limit 10"] (initState "k") rfl).2.1
      (by decide)
  · exact (C7_client_call "k" "games/" [] (initState "k") rfl).2.2.1 rfl

/-- C8: parsing converts every JSON object at any depth into an attribute
record whose attribute access returns the converted corresponding JSON
field, keeps arrays as ordered lists in input order, and leaves scalars
unchanged. -/
theorem C8_json_parsing_shape :
    (∀ (fs : List (String × JsonV)) (key : String),
      getAttr (json2obj (JsonV.obj fs)) key = Option.map json2obj (lookupField fs key)) ∧
    (∀ fs : List (String × JsonV),
      json2obj (JsonV.obj fs) = PyVal.namespace (fs.map (fun p => (p.1, json2obj p.2)))) ∧
    (∀ xs : List JsonV, json2obj (JsonV.arr xs) = PyVal.list (xs.map json2obj)) ∧
    (∀ xs : List JsonV, asCollection (JsonV.arr xs) = PyVal.list (List.map json2obj xs)) ∧
    json2obj JsonV.null = PyVal.none ∧
    (∀ b, json2obj (JsonV.bool b) = PyVal.bool b) ∧
    (∀ n, json2obj (JsonV.num n) = PyVal.int n) ∧
    (∀ s, json2obj (JsonV.str s) = PyVal.str s) := by
  refine ⟨?_, ?_, ?_, ?_, rfl, fun b => rfl, fun n => rfl, fun s => rfl⟩
  · intro fs key
    induction fs with
    | nil => rfl
    | cons p fs ih =>
      cases p with
      | mk k v =>
        by_cases hk : k = key
        · simp [json2obj, json2objFields, getAttr, lookupNS, lookupField, hk]
        · simpa [json2obj, json2objFields, getAttr, lookupNS, lookupField, hk] using ih
  · intro fs; simp [json2obj, json2objFields_eq_map]
  · intro xs; simp [json2obj, json2objList_eq_map]
  · intro xs; simp [asCollection, json2obj, json2objList_eq_map]

/-- C9: constructing the client with no key fails at once with the typed
configuration error and issues no request; constructing it with a key
succeeds, stores the key and the two headers, and also issues no request. -/
theorem C9_client_construction :
    (apiClientInit Option.none).1 =
      Except.error (PyError.valueError "You must set an API key.") ∧
    (apiClientInit Option.none).2 = [] ∧
    (∀ k : String,
      (apiClientInit (Option.some k)).1 = Except.ok
        { api_key := Option.some k, command := Option.none, data := Option.none,
          headers := [("Accept", Option.some "application/json; charset=UTF-8"),
                      ("user-key", Option.some k)] } ∧
      (apiClientInit (Option.some k)).2 = []) := by
  exact ⟨rfl, rfl, fun k => ⟨rfl, rfl⟩⟩

/-- C10: for every ESRB member, the dunder str method returns the integer
value of the member, so the standard string conversion raises TypeError. -/
theorem C10_esrb_str_type_error (e : ESRB) :
    esrbStrMethod e = PyVal.int e.value ∧
    pyStrOfESRB e =
      Except.error (PyError.typeError "__str__ returned non-string (type int)") := by
  exact ⟨rfl, rfl⟩
